import Mathlib

/-!
# n-point correlation driver and softmax regression training

A shallow embedding of

* `fastlib/branches/fastlib-stl/contrib/march/n_point/n_point_single_main.cc`
  (the command-line driver of the generic n-point correlation algorithm), and
* `src/mlpack/methods/softmax_regression/softmax_regression_impl.hpp`
  (`SoftmaxRegression::SoftmaxRegression` and `SoftmaxRegression::Train`).

Conventions.  A `double` is modelled by a rational number: the code embedded here only
stores, copies and compares such values, and the only literal it uses is `1.0`.  An `int`
is modelled by `Int`, a column or row count by `Nat`; every counter of the driver stays
between the two bounds of its loop, which are themselves `int`s of the program, so no
operation of the embedded code can leave the range of its machine type.
-/

namespace Arma

/-! ## Matrices and vectors -/

/-- An `arma::mat`: its dimensions and its entries (row index first). -/
structure Mat where
  n_rows : Nat
  n_cols : Nat
  elem : Nat → Nat → ℚ

/-- A default-constructed `arma::mat` (as in `arma::mat data_in, data_mat;`): no rows, no
columns. -/
def Mat.empty : Mat := ⟨0, 0, fun _ _ => 0⟩

/-- The matrix `arma::trans(m)`. -/
def trans (m : Mat) : Mat := ⟨m.n_cols, m.n_rows, fun i j => m.elem j i⟩

/-- An `arma::colvec`. -/
abbrev ColVec := List ℚ

/-- The vector left by `v.set_size(n); v.fill(1.0);`. -/
def onesVec (n : Nat) : ColVec := List.replicate n 1

/-- The test `m.is_empty()`: the matrix has no element. -/
def Mat.is_empty (m : Mat) : Bool := m.n_rows * m.n_cols == 0

end Arma

namespace NPoint

open Arma

/-! ## What the driver reads -/

/-- Everything `main` obtains from the command line, the parameter registry and the files it
loads.  `random_file` is `none` when the parameter `random` is not given.  `tree_leaf_size` is
the value the registry holds for `tree/leaf_size` when `main` starts.  `data_weights` stands
for the object that the name `data_weights` (line 134) denotes: the file declares no variable
of that name (the data weights it fills are called `weights`), so the object is taken as
given. -/
structure DriverInput where
  data_file : Mat
  random_file : Option Mat
  weighted_computation : Bool
  weights_file : ColVec
  random_weights_file : ColVec
  matcher_lower_bounds : Mat
  matcher_upper_bounds : Mat
  num_random : Int
  do_single_bandwidth : Bool
  do_naive : Bool
  tree_leaf_size : Int
  data_weights : ColVec

/-! ## Lines 47-105: loading the point sets and their weights -/

/-- Lines 49-58: `data_mat` is default-constructed, `data_in` is loaded, and the test
`data_in.n_rows > data_mat.n_cols` chooses between the transpose and the loaded matrix. -/
def load_data_mat (data_in : Mat) : Mat :=
  let data_mat : Mat := Mat.empty
  if data_in.n_rows > data_mat.n_cols then trans data_in else data_in

/-- Lines 64-72: the vector `weights`. -/
def load_weights (weighted_computation : Bool) (weights_file : ColVec) (data_mat : Mat) :
    ColVec :=
  if weighted_computation then weights_file else onesVec data_mat.n_cols

/-- Lines 75, 77-90: `random_mat` is default-constructed and only assigned inside
`if (IO::HasParam("random"))`, by the same test as for the data. -/
def load_random_mat (random_file : Option Mat) : Mat :=
  let random_mat : Mat := Mat.empty
  match random_file with
  | none => random_mat
  | some random_in =>
    if random_in.n_rows > random_mat.n_cols then trans random_in else random_in

/-- Lines 95-103: the vector `random_weights` declared INSIDE the block of
`if (IO::HasParam("random"))`.  It is the one that is loaded or filled with ones; it goes out
of scope at line 105.  `none` when the block is not entered. -/
def load_random_weights_block (random_file : Option Mat) (weighted_computation : Bool)
    (random_weights_file : ColVec) (random_mat : Mat) : Option ColVec :=
  match random_file with
  | none => none
  | some _ =>
    some (if weighted_computation then random_weights_file else onesVec random_mat.n_cols)

/-- The variables of `main` that are alive after line 105. `random_weights` is the vector
declared at line 76; no statement assigns it, because the declaration at line 95 hides it
inside the block. `random_weights_block` is the value the hidden vector had when it went out
of scope. -/
structure Loaded where
  data_mat : Mat
  weights : ColVec
  random_mat : Mat
  random_weights : ColVec
  random_weights_block : Option ColVec

/-- Lines 47-105. -/
def load (inp : DriverInput) : Loaded :=
  let data_mat := load_data_mat inp.data_file
  let weights := load_weights inp.weighted_computation inp.weights_file data_mat
  let random_mat := load_random_mat inp.random_file
  let random_weights : ColVec := []
  { data_mat := data_mat
    weights := weights
    random_mat := random_mat
    random_weights := random_weights
    random_weights_block :=
      load_random_weights_block inp.random_file inp.weighted_computation
        inp.random_weights_file random_mat }

/-! ## Lines 116-136: the slot assignment -/

/-- The target of a pointer stored in `comp_mats`. -/
inductive MatRef where
  | random_mat
  | data_mat
  deriving DecidableEq, Repr

/-- The target of a pointer stored in `comp_weights`. -/
inductive WeightRef where
  | random_weights
  | data_weights
  deriving DecidableEq, Repr

/-- The two vectors the loops index with the loop counter. -/
inductive SlotVec where
  | comp_mats
  | comp_weights
  deriving DecidableEq, Repr

/-- One use of `operator[]` with the loop counter: which vector, at which index. -/
structure Access where
  vec : SlotVec
  idx : Int
  deriving DecidableEq, Repr

/-- The vectors of lines 120-124 and, as a ghost field, the list of the indexings performed so
far (most recent last). A null pointer is `none`. -/
structure SlotState where
  comp_mats : List (Option MatRef)
  comp_multi : List Int
  comp_weights : List (Option WeightRef)
  accesses : List Access

/-- The assignment `v[i] = x` of a `std::vector`. Inside the bounds it replaces the element;
outside (which C++ leaves undefined) the model leaves the vector as it is, and the access is
still recorded in `SlotState.accesses`. -/
def vecSet {α : Type} (v : List α) (i : Int) (x : α) : List α :=
  if 0 ≤ i then v.set i.toNat x else v

/-- The statement `v[k]++` for a vector of `int` and a constant index `k`. -/
def vecIncr (v : List Int) (k : Nat) : List Int :=
  v.modify (fun c => c + 1) k

/-- The loop `for (int i = lo; i < hi; i++) body(i)`, started with the counter at `i`; `fuel`
bounds the number of iterations. -/
def forLoop {σ : Type} (body : Int → σ → σ) (hi : Int) : Nat → Int → σ → σ
  | 0, _, s => s
  | fuel + 1, i, s => if i < hi then forLoop body hi fuel (i + 1) (body i s) else s

/-- The loop `for (int i = lo; i < hi; i++) body(i)` with the fuel it needs: it runs
`hi - lo` times when `lo < hi` and not at all otherwise. -/
def forRange {σ : Type} (lo hi : Int) (body : Int → σ → σ) (s : σ) : σ :=
  forLoop body hi (hi - lo).toNat lo s

/-- The values the counter of `for (int i = lo; ...; i++)` takes in its first `n`
iterations: `lo, lo + 1, ..., lo + n - 1`. -/
def loopIndices (lo : Int) (n : Nat) : List Int :=
  (List.range n).map fun (k : Nat) => lo + (k : Int)

/-- The two indexings of one iteration of either loop, at counter value `i`. -/
def iterationAccesses (i : Int) : List Access :=
  [⟨SlotVec.comp_mats, i⟩, ⟨SlotVec.comp_weights, i⟩]

/-- Lines 120-125: the vectors as constructed (`comp_mats` and `comp_weights` hold
`tuple_size` null pointers, `comp_multi` is `[0, 0]`). -/
def slotInit (tuple_size : Nat) : SlotState :=
  { comp_mats := List.replicate tuple_size none
    comp_multi := vecSet (vecSet (List.replicate 2 0) 0 0) 1 0
    comp_weights := List.replicate tuple_size none
    accesses := [] }

/-- Lines 128-130, the body of the first loop. -/
def randomSlotBody (i : Int) (s : SlotState) : SlotState :=
  { comp_mats := vecSet s.comp_mats i (some MatRef.random_mat)
    comp_weights := vecSet s.comp_weights i (some WeightRef.random_weights)
    comp_multi := vecIncr s.comp_multi 0
    accesses := s.accesses ++ iterationAccesses i }

/-- Lines 133-135, the body of the second loop. -/
def dataSlotBody (i : Int) (s : SlotState) : SlotState :=
  { comp_mats := vecSet s.comp_mats i (some MatRef.data_mat)
    comp_weights := vecSet s.comp_weights i (some WeightRef.data_weights)
    comp_multi := vecIncr s.comp_multi 1
    accesses := s.accesses ++ iterationAccesses i }

/-- Lines 116-136 as a function of the two `int`s `tuple_size` (the column count of the lower
bound matrix) and `num_random`. -/
def slotAssignment (tuple_size : Nat) (num_random : Int) : SlotState :=
  let s0 := slotInit tuple_size
  let s1 := forRange 0 num_random randomSlotBody s0
  forRange num_random tuple_size dataSlotBody s1

/-- Lines 116-136 on the driver's input: `tuple_size = matcher_lower_bounds.n_cols`, a column
count that fits the `int` it is stored in. -/
def slots (inp : DriverInput) : SlotState :=
  slotAssignment inp.matcher_lower_bounds.n_cols inp.num_random

/-- The vector a pointer of `comp_weights` points to. -/
def derefWeights (inp : DriverInput) (l : Loaded) : WeightRef → ColVec
  | WeightRef.random_weights => l.random_weights
  | WeightRef.data_weights => inp.data_weights

/-- The matrix a pointer of `comp_mats` points to. -/
def derefMat (l : Loaded) : MatRef → Mat
  | MatRef.random_mat => l.random_mat
  | MatRef.data_mat => l.data_mat

/-! ## Lines 141-210: the two runs

The classes `NptNode`, `SingleMatcher` and `GenericNptAlg` are declared in headers that are not
part of the driver's source file.  A run of the driver is embedded as the list of the calls it makes into that
code, in program order, each with the arguments it is given. -/

/-- An `NptNode` as the driver knows it: the matrix given to `new NptNode(...)` and the value the
registry holds for `tree/leaf_size` when the constructor is called. -/
structure NptNode where
  built_from : MatRef
  leaf_size : Int
  deriving DecidableEq, Repr

/-- The arguments of `SingleMatcher matcher(comp_mats, comp_weights, matcher_lower_bounds,
matcher_upper_bounds)`. -/
structure MatcherArgs where
  comp_mats : List (Option MatRef)
  comp_weights : List (Option WeightRef)
  matcher_lower_bounds : Mat
  matcher_upper_bounds : Mat

/-- The arguments of `GenericNptAlg<SingleMatcher> alg(comp_trees, comp_multi, matcher ...)`;
`naive` is `none` when the fourth argument is left out (line 161) and `some true` at line 197. -/
structure AlgArgs where
  comp_trees : List (Option NptNode)
  comp_multi : List Int
  naive : Option Bool

/-- A call the driver makes while it runs the algorithm. -/
inductive Step where
  | startTimer (name : String)
  | setParam (name : String) (value : Int)
  | newNptNode (tree : NptNode)
  | newSingleMatcher (args : MatcherArgs)
  | newGenericNptAlg (args : AlgArgs)
  | compute
  | stopTimer (name : String)
  | results

/-- Whether the call is `alg.Compute()`. -/
def Step.isCompute : Step → Bool
  | Step.compute => true
  | _ => false

/-- The trees constructed by a list of calls, in order. -/
def builtTrees : List Step → List NptNode
  | [] => []
  | Step.newNptNode t :: rest => t :: builtTrees rest
  | _ :: rest => builtTrees rest

/-- The argument lists with which a list of calls constructs `GenericNptAlg`, in order. -/
def algCalls : List Step → List AlgArgs
  | [] => []
  | Step.newGenericNptAlg a :: rest => a :: algCalls rest
  | _ :: rest => algCalls rest

/-- The argument lists with which a list of calls constructs `SingleMatcher`, in order. -/
def matcherCalls : List Step → List MatcherArgs
  | [] => []
  | Step.newSingleMatcher a :: rest => a :: matcherCalls rest
  | _ :: rest => matcherCalls rest

/-- What the runs read and change in `main`: the registry value of `tree/leaf_size`, the vector
`comp_trees` (line 125: two null pointers at first) and the calls made so far. -/
structure RunState where
  tree_leaf_size : Int
  comp_trees : List (Option NptNode)
  steps : List Step

/-- Lines 147-169, the body of `if (IO::HasParam("do_single_bandwidth"))`. -/
def single_bandwidth_run (inp : DriverInput) (sl : SlotState) (st : RunState) : RunState :=
  let data_tree : NptNode := ⟨MatRef.data_mat, st.tree_leaf_size⟩
  let random_tree : NptNode := ⟨MatRef.random_mat, st.tree_leaf_size⟩
  let comp_trees := vecSet (vecSet st.comp_trees 0 (some random_tree)) 1 (some data_tree)
  { tree_leaf_size := st.tree_leaf_size
    comp_trees := comp_trees
    steps := st.steps ++
      [ Step.startTimer "single_bandwidth_time",
        Step.newNptNode data_tree,
        Step.newNptNode random_tree,
        Step.newSingleMatcher
          ⟨sl.comp_mats, sl.comp_weights, inp.matcher_lower_bounds, inp.matcher_upper_bounds⟩,
        Step.newGenericNptAlg ⟨comp_trees, sl.comp_multi, none⟩,
        Step.compute,
        Step.stopTimer "single_bandwidth_time",
        Step.results ] }

/-- Lines 182-206, the body of `if (IO::HasParam("do_naive"))`.  The larger of the two column
counts is stored as an `int`; like every size in this development it is taken to fit one, so
that the conversion keeps its value. -/
def naive_run (inp : DriverInput) (l : Loaded) (sl : SlotState) (st : RunState) : RunState :=
  let leaf_size : Int := ((max l.data_mat.n_cols l.random_mat.n_cols : Nat) : Int)
  let naive_data_tree : NptNode := ⟨MatRef.data_mat, leaf_size⟩
  let naive_random_tree : NptNode := ⟨MatRef.random_mat, leaf_size⟩
  let comp_trees :=
    vecSet (vecSet st.comp_trees 0 (some naive_random_tree)) 1 (some naive_data_tree)
  { tree_leaf_size := leaf_size
    comp_trees := comp_trees
    steps := st.steps ++
      [ Step.startTimer "naive_time",
        Step.setParam "tree/leaf_size" leaf_size,
        Step.newNptNode naive_data_tree,
        Step.newNptNode naive_random_tree,
        Step.newSingleMatcher
          ⟨sl.comp_mats, sl.comp_weights, inp.matcher_lower_bounds, inp.matcher_upper_bounds⟩,
        Step.newGenericNptAlg ⟨comp_trees, sl.comp_multi, some true⟩,
        Step.compute,
        Step.stopTimer "naive_time",
        Step.results ] }

/-- The state in which `main` reaches line 141. -/
def runInit (inp : DriverInput) : RunState :=
  { tree_leaf_size := inp.tree_leaf_size
    comp_trees := List.replicate 2 none
    steps := [] }

/-- Lines 141-210: the calls `main` makes when every one of them returns. -/
def program (inp : DriverInput) : List Step :=
  let l := load inp
  let sl := slots inp
  let st0 := runInit inp
  let st1 := if inp.do_single_bandwidth then single_bandwidth_run inp sl st0 else st0
  let st2 := if inp.do_naive then naive_run inp l sl st1 else st1
  st2.steps

/-- Modelled from the spec: the set (index into `comp_trees` and `comp_multi`) that slot `i`
belongs to.  The rule by which `GenericNptAlg` relates slots to trees is in a header that is not
in the file; section 3 has the multiplicities "record, per distinct input set, how many slots
draw from it", in slot order: the first `comp_multi[0]` slots belong to set 0, the following
ones to set 1. -/
def slotSet (comp_multi : List Int) (i : Nat) : Nat :=
  if (i : Int) < comp_multi.getD 0 0 then 0 else 1

/-! ## Input validation, from the specification

The constructors of `NptNode` and `SingleMatcher` are not in the file; what they reject is
taken from sections 4.1, 4.3 and 7 of the specification. -/

/-- The errors of section 7 of the specification. -/
inductive Err where
  | InvalidInputError
  | InvalidMatcherError
  | DimensionMismatchError
  deriving DecidableEq, Repr

/-- A bound matrix is square. -/
def isSquare (m : Mat) : Prop := m.n_rows = m.n_cols

/-- A bound matrix is symmetric: `bound[i][j] == bound[j][i]`. -/
def isSymmetric (m : Mat) : Prop :=
  ∀ i, i < m.n_rows → ∀ j, j < m.n_cols → m.elem i j = m.elem j i

/-- Some pair `i ≠ j` has `lower[i][j] > upper[i][j]`. -/
def isInverted (lower upper : Mat) : Prop :=
  ∃ i, i < lower.n_rows ∧ ∃ j, j < lower.n_cols ∧ i ≠ j ∧ lower.elem i j > upper.elem i j

instance (m : Mat) : Decidable (isSquare m) := by
  unfold isSquare; infer_instance

instance (m : Mat) : Decidable (isSymmetric m) := by
  unfold isSymmetric; infer_instance

instance (lower upper : Mat) : Decidable (isInverted lower upper) := by
  unfold isInverted; infer_instance

/-- Modelled from the spec: the validation of `Build(pointSet, leafSize)` (section 4.1), which
is what the absent constructor `NptNode(mat)` stands for.  "Fails with `InvalidInputError` when
pointSet is empty or leafSize < 1"; the points are the columns of the matrix. -/
def Build_check (pointSet : Mat) (leafSize : Int) : Except Err Unit :=
  if pointSet.n_cols = 0 ∨ leafSize < 1 then Except.error Err.InvalidInputError
  else Except.ok ()

/-- Every slot's weight vector is as long as the slot's point set has points. -/
def weightsParallel (inp : DriverInput) (l : Loaded) (a : MatcherArgs) : Bool :=
  (List.zip a.comp_mats a.comp_weights).all fun p =>
    match p with
    | (some m, some w) => (derefWeights inp l w).length == (derefMat l m).n_cols
    | _ => true

/-- All slots draw from point sets of the same spatial dimension (row count). -/
def sameDimension (l : Loaded) (a : MatcherArgs) : Bool :=
  let dims := (a.comp_mats.filterMap id).map fun m => (derefMat l m).n_rows
  dims.all fun d => dims.all fun e => d == e

/-- Modelled from the spec: the validation at the construction of the matcher, which is what
the absent constructor `SingleMatcher(...)` stands for.  Section 6: the bounds are "two square
numeric matrices of size K×K"; section 7: `InvalidInputError` for "mismatched weight-vector
length, non-square or asymmetric bound matrices, lower>upper on any pair", and
`DimensionMismatchError` when point sets of one matcher differ in dimension; section 4.3:
"malformed (non-symmetric or inverted) bound matrices must be rejected at matcher construction
time with `InvalidMatcherError`". -/
def SingleMatcher_check (inp : DriverInput) (l : Loaded) (a : MatcherArgs) : Except Err Unit :=
  if ¬ isSquare a.matcher_lower_bounds ∨ ¬ isSquare a.matcher_upper_bounds
      ∨ a.matcher_lower_bounds.n_cols ≠ a.matcher_upper_bounds.n_cols then
    Except.error Err.InvalidInputError
  else if ¬ isSymmetric a.matcher_lower_bounds ∨ ¬ isSymmetric a.matcher_upper_bounds
      ∨ isInverted a.matcher_lower_bounds a.matcher_upper_bounds then
    Except.error Err.InvalidMatcherError
  else if ¬ weightsParallel inp l a then Except.error Err.InvalidInputError
  else if ¬ sameDimension l a then Except.error Err.DimensionMismatchError
  else Except.ok ()

/-- Modelled from the spec: whether a call of the driver into the absent code throws.  Only the
two constructors validate (section 7: "detected eagerly at tree/matcher construction; never
surfaces mid-traversal"). -/
def stepCheck (inp : DriverInput) (l : Loaded) : Step → Except Err Unit
  | Step.newNptNode t => Build_check (derefMat l t.built_from) t.leaf_size
  | Step.newSingleMatcher a => SingleMatcher_check inp l a
  | _ => Except.ok ()

/-- What a run of `main` comes to: the calls that were made and returned, and the error that
left `main` as an uncaught exception (`none` when `main` reached `return 0`). -/
structure Outcome where
  completed : List Step
  thrown : Option Err

/-- The calls are made in order; the first one that throws ends the program, because `main`
has no handler. -/
def exec (check : Step → Except Err Unit) : List Step → Outcome
  | [] => ⟨[], none⟩
  | st :: rest =>
    match check st with
    | Except.error e => ⟨[], some e⟩
    | Except.ok _ => let r := exec check rest; ⟨st :: r.completed, r.thrown⟩

/-- The function `main`, lines 39-244. -/
def main (inp : DriverInput) : Outcome :=
  exec (stepCheck inp (load inp)) (program inp)

/-- Whether the call is the construction of a tree or of the matcher. -/
def Step.isConstructor : Step → Bool
  | Step.newNptNode _ => true
  | Step.newSingleMatcher _ => true
  | _ => false

/-- The value the registry holds for `tree/leaf_size` while the first requested run builds its
trees: the value found on entry in the tree run (line 151), the one set at line 184 when only
the naive run is requested. -/
def firstRunLeafSize (inp : DriverInput) : Int :=
  if inp.do_single_bandwidth then inp.tree_leaf_size
  else ((max (load inp).data_mat.n_cols (load inp).random_mat.n_cols : Nat) : Int)

/-- The bound matrices are not "two square matrices of size K×K". -/
def notSquareKxK (lower upper : Mat) : Prop :=
  ¬ isSquare lower ∨ ¬ isSquare upper ∨ lower.n_cols ≠ upper.n_cols

instance (lower upper : Mat) : Decidable (notSquareKxK lower upper) := by
  unfold notSquareKxK; infer_instance

/-- How often `alg.Compute()` was invoked. -/
def Outcome.computeCalls (o : Outcome) : Nat :=
  (o.completed.filter Step.isCompute).length

/-- The input that section 7 calls invalid: a bound matrix that is not square or not
symmetric, a pair with `lower > upper`, or an empty point set. -/
def invalidInput (inp : DriverInput) : Prop :=
  ¬ isSquare inp.matcher_lower_bounds ∨ ¬ isSquare inp.matcher_upper_bounds
    ∨ ¬ isSymmetric inp.matcher_lower_bounds ∨ ¬ isSymmetric inp.matcher_upper_bounds
    ∨ isInverted inp.matcher_lower_bounds inp.matcher_upper_bounds
    ∨ (load inp).data_mat.n_cols = 0 ∨ (load inp).random_mat.n_cols = 0

/-! ## Concrete inputs -/

/-- Three points in two dimensions, one point per ROW of the file (3 rows, 2 columns). -/
def pointsByRows : Mat := ⟨3, 2, fun i j => (i : ℚ) + (j : ℚ)⟩

/-- Three points in two dimensions, one point per COLUMN of the file (2 rows, 3 columns). -/
def pointsByColumns : Mat := ⟨2, 3, fun i j => (i : ℚ) + (j : ℚ)⟩

/-- A run for 3-point correlation with two random slots and one data slot: both files hold
three points in two dimensions stored one point per row, no weighted computation, symmetric
3×3 bounds with `lower ≤ upper`, both runs requested. -/
def sampleInput : DriverInput :=
  { data_file := pointsByRows
    random_file := some pointsByRows
    weighted_computation := false
    weights_file := []
    random_weights_file := []
    matcher_lower_bounds := ⟨3, 3, fun _ _ => 0⟩
    matcher_upper_bounds := ⟨3, 3, fun _ _ => 1⟩
    num_random := 2
    do_single_bandwidth := true
    do_naive := true
    tree_leaf_size := 1
    data_weights := [1, 1, 1] }

/-- The same run with both files stored one point per column (2 rows, 3 columns). -/
def columnsInput : DriverInput :=
  { sampleInput with data_file := pointsByColumns, random_file := some pointsByColumns }

/-- The sample run with no random slot (`num_random = 0`): every check of the validation
passes. -/
def dataOnlyInput : DriverInput :=
  { sampleInput with num_random := 0 }

/-- The run `dataOnlyInput` with a lower bound matrix that is not square (2 rows, 3
columns); nothing else is changed. -/
def nonSquareInput : DriverInput :=
  { dataOnlyInput with matcher_lower_bounds := ⟨2, 3, fun _ _ => 0⟩ }

/-- The run `dataOnlyInput` without the parameter `random`: the random point set is empty. -/
def noRandomFileInput : DriverInput :=
  { dataOnlyInput with random_file := none }

end NPoint

namespace Softmax

open Arma

/-! ## `softmax_regression_impl.hpp` -/

/-- The object `SoftmaxRegressionFunction regressor(data, labels, numClasses, lambda,
fitIntercept)`.  The class is declared in another file; the object is represented by the
arguments it is constructed from. -/
structure SoftmaxRegressionFunction where
  data : Mat
  labels : List Nat
  numClasses : Nat
  lambda : ℚ
  fitIntercept : Bool

/-- The template parameter `OptimizerType`: `Optimize(function, iterate, callbacks...)` takes
the iterate by reference; it returns a `double` and leaves a matrix in the iterate. -/
structure OptimizerType (CallbackType : Type) where
  Optimize : SoftmaxRegressionFunction → Mat → List CallbackType → ℚ × Mat

/-- The data members of `SoftmaxRegression` that the constructor and `Train` touch. -/
structure SoftmaxRegression where
  parameters : Mat
  numClasses : Nat
  lambda : ℚ
  fitIntercept : Bool

/-- What `Train` does besides computing, in program order. -/
inductive TrainEvent where
  | assignInitialPoint
  | timerStart (name : String)
  | optimize (regressor : SoftmaxRegressionFunction) (start : Mat)
  | timerStop (name : String)
  | logInfo (out : ℚ)

/-- Whether the event is the assignment `parameters = regressor.GetInitialPoint()`. -/
def TrainEvent.isAssignInitialPoint : TrainEvent → Bool
  | TrainEvent.assignInitialPoint => true
  | _ => false

/-- The matrices the optimizer was started from, in order. -/
def startPoints : List TrainEvent → List Mat
  | [] => []
  | TrainEvent.optimize _ start :: rest => start :: startPoints rest
  | _ :: rest => startPoints rest

/-- The result of a call of `Train`: the returned `double`, the object afterwards, and what
happened. -/
structure TrainResult where
  out : ℚ
  self : SoftmaxRegression
  events : List TrainEvent

/-- The function `SoftmaxRegression::Train`, lines 56-77.  `GetInitialPoint` is the member function
of `SoftmaxRegressionFunction` of that name, which is defined in another file. -/
def Train {CallbackType : Type} (GetInitialPoint : SoftmaxRegressionFunction → Mat)
    (self : SoftmaxRegression) (data : Mat) (labels : List Nat) (numClasses : Nat)
    (optimizer : OptimizerType CallbackType) (callbacks : List CallbackType) : TrainResult :=
  let regressor : SoftmaxRegressionFunction :=
    ⟨data, labels, numClasses, self.lambda, self.fitIntercept⟩
  let assigned := self.parameters.is_empty
  let parameters := if assigned then GetInitialPoint regressor else self.parameters
  let r := optimizer.Optimize regressor parameters callbacks
  { out := r.1
    self := { self with parameters := r.2 }
    events :=
      (if assigned then [TrainEvent.assignInitialPoint] else []) ++
      [ TrainEvent.timerStart "softmax_regression_optimization",
        TrainEvent.optimize regressor parameters,
        TrainEvent.timerStop "softmax_regression_optimization",
        TrainEvent.logInfo r.1 ] }

/-- The templated constructor, lines 21-34: the three members of the initializer list are
set, `parameters` is default-constructed, and `Train` is called without callbacks.  The result
carries the constructed object. -/
def SoftmaxRegression.new {CallbackType : Type}
    (GetInitialPoint : SoftmaxRegressionFunction → Mat)
    (data : Mat) (labels : List Nat) (numClasses : Nat) (lambda : ℚ) (fitIntercept : Bool)
    (optimizer : OptimizerType CallbackType) : TrainResult :=
  let self : SoftmaxRegression :=
    { parameters := Mat.empty, numClasses := numClasses, lambda := lambda,
      fitIntercept := fitIntercept }
  Train GetInitialPoint self data labels numClasses optimizer []

end Softmax

/-! # Theorems -/

namespace NPoint

open Arma

/-! ## The loops -/

theorem loopIndices_succ (lo : Int) (n : Nat) :
    loopIndices lo (n + 1) = lo :: loopIndices (lo + 1) n := by
  unfold loopIndices
  rw [List.range_succ_eq_map, List.map_cons, List.map_map]
  simp only [Nat.cast_zero, add_zero, List.cons.injEq, true_and]
  apply List.map_congr_left
  intro k _
  simp only [Function.comp_apply, Nat.succ_eq_add_one, Nat.cast_add, Nat.cast_one]
  ring

theorem mem_loopIndices (lo : Int) (n : Nat) (j : Int) :
    j ∈ loopIndices lo n ↔ lo ≤ j ∧ j < lo + n := by
  unfold loopIndices
  simp only [List.mem_map, List.mem_range]
  constructor
  · rintro ⟨k, hk, rfl⟩
    omega
  · rintro ⟨h1, h2⟩
    exact ⟨(j - lo).toNat, by omega, by omega⟩

/-- A loop with at least the fuel it needs ends because its test fails, and its result is the
fold of its body over the counter values `i, ..., hi - 1`; more fuel changes nothing. -/
theorem forLoop_eq_foldl {σ : Type} (body : Int → σ → σ) (hi : Int) :
    ∀ (fuel : Nat) (i : Int) (s : σ), (hi - i).toNat ≤ fuel →
      forLoop body hi fuel i s
        = (loopIndices i (hi - i).toNat).foldl (fun s i => body i s) s := by
  intro fuel
  induction fuel with
  | zero =>
    intro i s h
    have h0 : (hi - i).toNat = 0 := by omega
    rw [h0]
    simp [forLoop, loopIndices]
  | succ n ih =>
    intro i s h
    by_cases hlt : i < hi
    · have hs : (hi - i).toNat = (hi - (i + 1)).toNat + 1 := by omega
      rw [forLoop, if_pos hlt, hs, loopIndices_succ, List.foldl_cons]
      exact ih (i + 1) (body i s) (by omega)
    · have h0 : (hi - i).toNat = 0 := by omega
      rw [forLoop, if_neg hlt, h0]
      simp [loopIndices]

theorem forRange_eq_foldl {σ : Type} (lo hi : Int) (body : Int → σ → σ) (s : σ) :
    forRange lo hi body s
      = (loopIndices lo (hi - lo).toNat).foldl (fun s i => body i s) s :=
  forLoop_eq_foldl body hi _ lo s (le_refl _)

theorem vecSet_length {α : Type} (v : List α) (i : Int) (x : α) :
    (vecSet v i x).length = v.length := by
  unfold vecSet
  split <;> simp

theorem vecSet_getElem? {α : Type} (v : List α) (i : Int) (x : α) (j : Nat) :
    (vecSet v i x)[j]? = if i = (j : Int) ∧ j < v.length then some x else v[j]? := by
  unfold vecSet
  by_cases h0 : 0 ≤ i
  · rw [if_pos h0, List.getElem?_set]
    by_cases hij : i.toNat = j
    · have hi : i = (j : Int) := by omega
      rw [if_pos hij, hij]
      by_cases hl : j < v.length
      · rw [if_pos hl, if_pos ⟨hi, hl⟩]
      · rw [if_neg hl, if_neg (fun h => hl h.2)]
        exact (List.getElem?_eq_none (by omega)).symm
    · have hi : ¬ i = (j : Int) := by omega
      rw [if_neg hij, if_neg (fun h => hi h.1)]
  · have hi : ¬ i = (j : Int) := by omega
    rw [if_neg h0, if_neg (fun h => hi h.1)]

/-- Writing `x` at every index of a list of indices: the positions that are hit hold `x`, the
others keep their value, and the length does not change. -/
theorem foldl_vecSet {α : Type} (x : α) (L : List Int) :
    ∀ v : List α,
      (L.foldl (fun v i => vecSet v i x) v).length = v.length ∧
      ∀ j : Nat, (L.foldl (fun v i => vecSet v i x) v)[j]?
        = if (j : Int) ∈ L ∧ j < v.length then some x else v[j]? := by
  induction L with
  | nil => intro v; simp
  | cons i L ih =>
    intro v
    obtain ⟨hlen, hget⟩ := ih (vecSet v i x)
    refine ⟨by rw [List.foldl_cons, hlen, vecSet_length], fun j => ?_⟩
    rw [List.foldl_cons, hget j, vecSet_length, vecSet_getElem?]
    by_cases hl : j < v.length
    · by_cases hm : (j : Int) ∈ L
      · simp [hl, hm]
      · by_cases hij : i = (j : Int)
        · simp [hl, hij]
        · have : ¬ (j : Int) = i := fun h => hij h.symm
          simp [hl, hm, hij, this]
    · simp [hl]

/-- The state after a loop whose body writes `x` and `y` at the counter and increments
`comp_multi[k]`, for `k` one of the two indices of `comp_multi`. -/
theorem foldl_slotBody (body : Int → SlotState → SlotState) (x : Option MatRef)
    (y : Option WeightRef) (k : Nat)
    (hbody : ∀ i s, body i s =
      { comp_mats := vecSet s.comp_mats i x
        comp_weights := vecSet s.comp_weights i y
        comp_multi := vecIncr s.comp_multi k
        accesses := s.accesses ++ iterationAccesses i }) (L : List Int) :
    ∀ s : SlotState,
      (L.foldl (fun s i => body i s) s).comp_mats
          = L.foldl (fun v i => vecSet v i x) s.comp_mats ∧
      (L.foldl (fun s i => body i s) s).comp_weights
          = L.foldl (fun v i => vecSet v i y) s.comp_weights ∧
      (L.foldl (fun s i => body i s) s).comp_multi
          = (fun v => vecIncr v k)^[L.length] s.comp_multi ∧
      (L.foldl (fun s i => body i s) s).accesses
          = s.accesses ++ L.flatMap iterationAccesses := by
  induction L with
  | nil => intro s; simp
  | cons i L ih =>
    intro s
    obtain ⟨h1, h2, h3, h4⟩ := ih (body i s)
    simp only [List.foldl_cons, List.length_cons, Function.iterate_succ, Function.comp_apply,
      List.flatMap_cons]
    rw [h1, h2, h3, h4, hbody]
    simp

theorem iterate_vecIncr_zero (a b : Int) (n : Nat) :
    (fun v => vecIncr v 0)^[n] [a, b] = [a + n, b] := by
  induction n generalizing a with
  | zero => simp
  | succ n ih =>
    rw [Function.iterate_succ, Function.comp_apply]
    have : vecIncr [a, b] 0 = [a + 1, b] := rfl
    rw [this, ih]
    simp only [Nat.cast_add, Nat.cast_one, List.cons.injEq, and_true]
    ring

theorem iterate_vecIncr_one (a b : Int) (n : Nat) :
    (fun v => vecIncr v 1)^[n] [a, b] = [a, b + n] := by
  induction n generalizing b with
  | zero => simp
  | succ n ih =>
    rw [Function.iterate_succ, Function.comp_apply]
    have : vecIncr [a, b] 1 = [a, b + 1] := rfl
    rw [this, ih]
    simp only [Nat.cast_add, Nat.cast_one, List.cons.injEq, true_and, and_true]
    ring

/-- The vectors after line 136, for every `tuple_size` and every `num_random`: each loop has
run over all its counter values. -/
theorem slotAssignment_eq (K : Nat) (nr : Int) :
    (slotAssignment K nr).comp_mats
        = (loopIndices nr ((K : Int) - nr).toNat).foldl
            (fun v i => vecSet v i (some MatRef.data_mat))
            ((loopIndices 0 nr.toNat).foldl (fun v i => vecSet v i (some MatRef.random_mat))
              (List.replicate K none)) ∧
    (slotAssignment K nr).comp_weights
        = (loopIndices nr ((K : Int) - nr).toNat).foldl
            (fun v i => vecSet v i (some WeightRef.data_weights))
            ((loopIndices 0 nr.toNat).foldl
              (fun v i => vecSet v i (some WeightRef.random_weights))
              (List.replicate K none)) ∧
    (slotAssignment K nr).comp_multi = [(nr.toNat : Int), ((((K : Int) - nr).toNat : Nat) : Int)] ∧
    (slotAssignment K nr).accesses
        = (loopIndices 0 nr.toNat ++ loopIndices nr ((K : Int) - nr).toNat).flatMap
            iterationAccesses := by
  obtain ⟨a1, a2, a3, a4⟩ := foldl_slotBody randomSlotBody (some MatRef.random_mat)
    (some WeightRef.random_weights) 0 (fun _ _ => rfl) (loopIndices 0 nr.toNat) (slotInit K)
  obtain ⟨b1, b2, b3, b4⟩ := foldl_slotBody dataSlotBody (some MatRef.data_mat)
    (some WeightRef.data_weights) 1 (fun _ _ => rfl) (loopIndices nr ((K : Int) - nr).toNat)
    ((loopIndices 0 nr.toNat).foldl (fun s i => randomSlotBody i s) (slotInit K))
  have hinit : (slotInit K).comp_multi = [0, 0] := rfl
  have hfold : slotAssignment K nr
      = (loopIndices nr ((K : Int) - nr).toNat).foldl (fun s i => dataSlotBody i s)
          ((loopIndices 0 nr.toNat).foldl (fun s i => randomSlotBody i s) (slotInit K)) := by
    unfold slotAssignment
    simp only [forRange_eq_foldl, sub_zero]
  rw [hfold, b1, b2, b3, b4, a1, a2, a3, a4, hinit, iterate_vecIncr_zero, iterate_vecIncr_one]
  refine ⟨rfl, rfl, ?_, ?_⟩
  · simp [loopIndices]
  · simp [slotInit, List.flatMap_append]

/-- With `0 ≤ num_random ≤ tuple_size`, slot `i` points to the random matrix when
`i < num_random` and to the data matrix otherwise, and the multiplicities are
`[num_random, tuple_size - num_random]`. -/
theorem slotAssignment_in_range (K : Nat) (nr : Int) (h0 : 0 ≤ nr) (hK : nr ≤ K) :
    (slotAssignment K nr).comp_mats.length = K ∧
    (∀ i : Nat, i < K → (slotAssignment K nr).comp_mats[i]?
        = some (some (if (i : Int) < nr then MatRef.random_mat else MatRef.data_mat))) ∧
    (slotAssignment K nr).comp_weights.length = K ∧
    (∀ i : Nat, i < K → (slotAssignment K nr).comp_weights[i]?
        = some (some (if (i : Int) < nr then WeightRef.random_weights
            else WeightRef.data_weights))) ∧
    (slotAssignment K nr).comp_multi = [nr, (K : Int) - nr] := by
  obtain ⟨e1, e2, e3, _⟩ := slotAssignment_eq K nr
  have key : ∀ {α : Type} (x y : α) (i : Nat), i < K →
      ((loopIndices nr ((K : Int) - nr).toNat).foldl (fun v i => vecSet v i (some y))
        ((loopIndices 0 nr.toNat).foldl (fun v i => vecSet v i (some x))
          (List.replicate K none))).length = K ∧
      ((loopIndices nr ((K : Int) - nr).toNat).foldl (fun v i => vecSet v i (some y))
        ((loopIndices 0 nr.toNat).foldl (fun v i => vecSet v i (some x))
          (List.replicate K none)))[i]? = some (some (if (i : Int) < nr then x else y)) := by
    intro α x y i hi
    obtain ⟨l1, g1⟩ := foldl_vecSet (some x) (loopIndices 0 nr.toNat) (List.replicate K none)
    obtain ⟨l2, g2⟩ := foldl_vecSet (some y) (loopIndices nr ((K : Int) - nr).toNat)
      ((loopIndices 0 nr.toNat).foldl (fun v i => vecSet v i (some x)) (List.replicate K none))
    rw [List.length_replicate] at l1
    refine ⟨by rw [l2, l1], ?_⟩
    rw [g2, g1, l1]
    simp only [List.length_replicate, mem_loopIndices]
    by_cases hlt : (i : Int) < nr
    · have n2 : ¬ ((nr ≤ (i : Int) ∧ (i : Int) < nr + (((K : Int) - nr).toNat : Nat)) ∧ i < K) := by
        omega
      have p1 : ((0 : Int) ≤ (i : Int) ∧ (i : Int) < 0 + (nr.toNat : Nat)) ∧ i < K := by omega
      rw [if_neg n2, if_pos p1, if_pos hlt]
    · have p2 : (nr ≤ (i : Int) ∧ (i : Int) < nr + (((K : Int) - nr).toNat : Nat)) ∧ i < K := by
        omega
      rw [if_pos p2, if_neg hlt]
  have hlen : ∀ {α : Type} (x y : α),
      ((loopIndices nr ((K : Int) - nr).toNat).foldl (fun v i => vecSet v i (some y))
        ((loopIndices 0 nr.toNat).foldl (fun v i => vecSet v i (some x))
          (List.replicate K (none : Option α)))).length = K := by
    intro α x y
    rw [(foldl_vecSet _ _ _).1, (foldl_vecSet _ _ _).1, List.length_replicate]
  refine ⟨by rw [e1]; exact hlen _ _, fun i hi => by rw [e1]; exact (key _ _ i hi).2,
    by rw [e2]; exact hlen _ _, fun i hi => by rw [e2]; exact (key _ _ i hi).2, ?_⟩
  rw [e3]
  have h1 : ((nr.toNat : Nat) : Int) = nr := Int.toNat_of_nonneg h0
  have h2 : ((((K : Int) - nr).toNat : Nat) : Int) = (K : Int) - nr :=
    Int.toNat_of_nonneg (by omega)
  rw [h1, h2]

/-- The list of steps of `main`, written out. -/
theorem program_eq (inp : DriverInput) :
    program inp =
      (if inp.do_single_bandwidth then
        [ Step.startTimer "single_bandwidth_time",
          Step.newNptNode ⟨MatRef.data_mat, inp.tree_leaf_size⟩,
          Step.newNptNode ⟨MatRef.random_mat, inp.tree_leaf_size⟩,
          Step.newSingleMatcher ⟨(slots inp).comp_mats, (slots inp).comp_weights,
            inp.matcher_lower_bounds, inp.matcher_upper_bounds⟩,
          Step.newGenericNptAlg
            ⟨[some ⟨MatRef.random_mat, inp.tree_leaf_size⟩,
              some ⟨MatRef.data_mat, inp.tree_leaf_size⟩], (slots inp).comp_multi, none⟩,
          Step.compute,
          Step.stopTimer "single_bandwidth_time",
          Step.results ]
       else []) ++
      (if inp.do_naive then
        [ Step.startTimer "naive_time",
          Step.setParam "tree/leaf_size"
            ((max (load inp).data_mat.n_cols (load inp).random_mat.n_cols : Nat) : Int),
          Step.newNptNode ⟨MatRef.data_mat,
            ((max (load inp).data_mat.n_cols (load inp).random_mat.n_cols : Nat) : Int)⟩,
          Step.newNptNode ⟨MatRef.random_mat,
            ((max (load inp).data_mat.n_cols (load inp).random_mat.n_cols : Nat) : Int)⟩,
          Step.newSingleMatcher ⟨(slots inp).comp_mats, (slots inp).comp_weights,
            inp.matcher_lower_bounds, inp.matcher_upper_bounds⟩,
          Step.newGenericNptAlg
            ⟨[some ⟨MatRef.random_mat,
                ((max (load inp).data_mat.n_cols (load inp).random_mat.n_cols : Nat) : Int)⟩,
              some ⟨MatRef.data_mat,
                ((max (load inp).data_mat.n_cols (load inp).random_mat.n_cols : Nat) : Int)⟩],
             (slots inp).comp_multi, some true⟩,
          Step.compute,
          Step.stopTimer "naive_time",
          Step.results ]
       else []) := by
  unfold program
  cases h1 : inp.do_single_bandwidth <;> cases h2 : inp.do_naive <;>
    simp [single_bandwidth_run, naive_run, runInit, vecSet]

/-- The constructions of `GenericNptAlg` in `main`: one per requested run, both with the
trees `[random, data]` and the multiplicities of the slot assignment. -/
theorem algCalls_program (inp : DriverInput) :
    algCalls (program inp) =
      (if inp.do_single_bandwidth then
        [ (⟨[some ⟨MatRef.random_mat, inp.tree_leaf_size⟩,
              some ⟨MatRef.data_mat, inp.tree_leaf_size⟩], (slots inp).comp_multi, none⟩ :
            AlgArgs) ]
       else []) ++
      (if inp.do_naive then
        [ (⟨[some ⟨MatRef.random_mat,
                ((max (load inp).data_mat.n_cols (load inp).random_mat.n_cols : Nat) : Int)⟩,
              some ⟨MatRef.data_mat,
                ((max (load inp).data_mat.n_cols (load inp).random_mat.n_cols : Nat) : Int)⟩],
             (slots inp).comp_multi, some true⟩ : AlgArgs) ]
       else []) := by
  rw [program_eq]
  cases inp.do_single_bandwidth <;> cases inp.do_naive <;> simp [algCalls]

/-- The constructions of `SingleMatcher` in `main`: one per requested run, with the vectors of
the slot assignment and the two bound matrices. -/
theorem matcherCalls_program (inp : DriverInput) :
    matcherCalls (program inp) =
      (if inp.do_single_bandwidth then
        [ (⟨(slots inp).comp_mats, (slots inp).comp_weights, inp.matcher_lower_bounds,
            inp.matcher_upper_bounds⟩ : MatcherArgs) ]
       else []) ++
      (if inp.do_naive then
        [ (⟨(slots inp).comp_mats, (slots inp).comp_weights, inp.matcher_lower_bounds,
            inp.matcher_upper_bounds⟩ : MatcherArgs) ]
       else []) := by
  rw [program_eq]
  cases inp.do_single_bandwidth <;> cases inp.do_naive <;> simp [matcherCalls]

/-! ## The slot assignment -/

/-- C1: for every tuple size `K` (the column count of the lower bound matrix) and every
`num_random` with `0 ≤ num_random ≤ K`, the vector `comp_mats` has `K` entries, slot `i` points
to the random matrix when `i < num_random` and to the data matrix otherwise, the multiplicity
vector is `[num_random, K - num_random]`, its entries sum to `K`, and it is this vector (and
this `comp_mats`) that every construction of the algorithm (of the matcher) in `main`
receives. -/
theorem slots_partition_and_multiplicities (inp : DriverInput)
    (h0 : 0 ≤ inp.num_random)
    (hK : inp.num_random ≤ (inp.matcher_lower_bounds.n_cols : Int)) :
    (slots inp).comp_mats.length = inp.matcher_lower_bounds.n_cols ∧
    (∀ i : Nat, i < inp.matcher_lower_bounds.n_cols →
      (slots inp).comp_mats[i]?
        = some (some (if (i : Int) < inp.num_random then MatRef.random_mat
            else MatRef.data_mat))) ∧
    (slots inp).comp_multi
      = [inp.num_random, (inp.matcher_lower_bounds.n_cols : Int) - inp.num_random] ∧
    (slots inp).comp_multi.sum = (inp.matcher_lower_bounds.n_cols : Int) ∧
    (∀ a ∈ algCalls (program inp), a.comp_multi
      = [inp.num_random, (inp.matcher_lower_bounds.n_cols : Int) - inp.num_random]) ∧
    (∀ m ∈ matcherCalls (program inp), m.comp_mats = (slots inp).comp_mats) := by
  obtain ⟨h1, h2, _, _, h5⟩ :=
    slotAssignment_in_range inp.matcher_lower_bounds.n_cols inp.num_random h0 hK
  refine ⟨h1, h2, h5, ?_, ?_, ?_⟩
  · show (slotAssignment _ _).comp_multi.sum = _
    rw [h5]
    simp
  · intro a ha
    rw [algCalls_program] at ha
    have h5' : (slots inp).comp_multi
        = [inp.num_random, (inp.matcher_lower_bounds.n_cols : Int) - inp.num_random] := h5
    cases hs : inp.do_single_bandwidth <;> cases hn : inp.do_naive <;>
      simp [hs, hn] at ha <;> rcases ha with rfl | rfl <;> exact h5'
  · intro m hm
    rw [matcherCalls_program] at hm
    cases hs : inp.do_single_bandwidth <;> cases hn : inp.do_naive <;>
      simp [hs, hn] at hm <;> rcases hm with rfl | rfl <;> rfl

/-- C1, at the sample run (`K = 3`, `num_random = 2`). -/
theorem slots_partition_and_multiplicities_witness :
    (0 ≤ sampleInput.num_random ∧
      sampleInput.num_random ≤ (sampleInput.matcher_lower_bounds.n_cols : Int)) ∧
    (slots sampleInput).comp_mats.length = sampleInput.matcher_lower_bounds.n_cols ∧
    (∀ i : Nat, i < sampleInput.matcher_lower_bounds.n_cols →
      (slots sampleInput).comp_mats[i]?
        = some (some (if (i : Int) < sampleInput.num_random then MatRef.random_mat
            else MatRef.data_mat))) ∧
    (slots sampleInput).comp_multi
      = [sampleInput.num_random,
          (sampleInput.matcher_lower_bounds.n_cols : Int) - sampleInput.num_random] ∧
    (slots sampleInput).comp_multi.sum = (sampleInput.matcher_lower_bounds.n_cols : Int) ∧
    (∀ a ∈ algCalls (program sampleInput), a.comp_multi
      = [sampleInput.num_random,
          (sampleInput.matcher_lower_bounds.n_cols : Int) - sampleInput.num_random]) ∧
    (∀ m ∈ matcherCalls (program sampleInput), m.comp_mats = (slots sampleInput).comp_mats) :=
  ⟨⟨by decide, by decide⟩,
    slots_partition_and_multiplicities sampleInput (by decide) (by decide)⟩

/-- The trees built in `main`: data tree then random tree, for each requested run. -/
theorem builtTrees_program (inp : DriverInput) :
    builtTrees (program inp) =
      (if inp.do_single_bandwidth then
        [ (⟨MatRef.data_mat, inp.tree_leaf_size⟩ : NptNode),
          ⟨MatRef.random_mat, inp.tree_leaf_size⟩ ]
       else []) ++
      (if inp.do_naive then
        [ (⟨MatRef.data_mat,
            ((max (load inp).data_mat.n_cols (load inp).random_mat.n_cols : Nat) : Int)⟩ :
            NptNode),
          ⟨MatRef.random_mat,
            ((max (load inp).data_mat.n_cols (load inp).random_mat.n_cols : Nat) : Int)⟩ ]
       else []) := by
  rw [program_eq]
  cases inp.do_single_bandwidth <;> cases inp.do_naive <;> simp [builtTrees]

/-- A tree list `[random, data]` with multiplicities `[num_random, K - num_random]` gives
every slot the tree built from the matrix the slot points to. -/
theorem aligned_of_trees (inp : DriverInput)
    (h0 : 0 ≤ inp.num_random)
    (hK : inp.num_random ≤ (inp.matcher_lower_bounds.n_cols : Int))
    (leaf : Int) (i : Nat) (hi : i < inp.matcher_lower_bounds.n_cols) :
    ∃ m t, (slots inp).comp_mats[i]? = some (some m) ∧
      [some (⟨MatRef.random_mat, leaf⟩ : NptNode), some ⟨MatRef.data_mat, leaf⟩][
        slotSet [inp.num_random, (inp.matcher_lower_bounds.n_cols : Int) - inp.num_random] i]?
        = some (some t) ∧
      t.built_from = m := by
  obtain ⟨_, h2, _⟩ :=
    slotAssignment_in_range inp.matcher_lower_bounds.n_cols inp.num_random h0 hK
  have h2' := h2 i hi
  by_cases hlt : (i : Int) < inp.num_random
  · refine ⟨MatRef.random_mat, ⟨MatRef.random_mat, leaf⟩, ?_, ?_, rfl⟩
    · rw [if_pos hlt] at h2'
      exact h2'
    · simp [slotSet, hlt]
  · refine ⟨MatRef.data_mat, ⟨MatRef.data_mat, leaf⟩, ?_, ?_, rfl⟩
    · rw [if_neg hlt] at h2'
      exact h2'
    · simp [slotSet, hlt]

/-- C8: with `0 ≤ num_random ≤ K`, every construction of the algorithm in `main` (the one of
the tree run, without naive flag, and the one of the naive run, with the flag) receives a tree
list whose entry 0 is a tree built in that program from the random matrix and whose entry 1 is
one built from the data matrix, next to the multiplicities `[num_random, K - num_random]`; so
for every slot `i < K` the tree of the slot's set is built from the matrix that `comp_mats[i]`
points to. -/
theorem trees_aligned_with_slots (inp : DriverInput)
    (h0 : 0 ≤ inp.num_random)
    (hK : inp.num_random ≤ (inp.matcher_lower_bounds.n_cols : Int)) :
    (inp.do_single_bandwidth = true → ∃ a ∈ algCalls (program inp), a.naive = none) ∧
    (inp.do_naive = true → ∃ a ∈ algCalls (program inp), a.naive = some true) ∧
    ∀ a ∈ algCalls (program inp),
      (∃ t0 t1, a.comp_trees = [some t0, some t1] ∧
        t0.built_from = MatRef.random_mat ∧ t1.built_from = MatRef.data_mat ∧
        t0 ∈ builtTrees (program inp) ∧ t1 ∈ builtTrees (program inp)) ∧
      a.comp_multi
        = [inp.num_random, (inp.matcher_lower_bounds.n_cols : Int) - inp.num_random] ∧
      ∀ i : Nat, i < inp.matcher_lower_bounds.n_cols →
        ∃ m t, (slots inp).comp_mats[i]? = some (some m) ∧
          a.comp_trees[slotSet a.comp_multi i]? = some (some t) ∧ t.built_from = m := by
  have h5 : (slots inp).comp_multi
      = [inp.num_random, (inp.matcher_lower_bounds.n_cols : Int) - inp.num_random] :=
    (slotAssignment_in_range inp.matcher_lower_bounds.n_cols inp.num_random h0 hK).2.2.2.2
  refine ⟨?_, ?_, ?_⟩
  · intro hs
    rw [algCalls_program, hs]
    exact ⟨⟨[some ⟨MatRef.random_mat, inp.tree_leaf_size⟩,
      some ⟨MatRef.data_mat, inp.tree_leaf_size⟩], (slots inp).comp_multi, none⟩,
      by simp, rfl⟩
  · intro hn
    rw [algCalls_program, hn]
    exact ⟨⟨[some ⟨MatRef.random_mat,
        ((max (load inp).data_mat.n_cols (load inp).random_mat.n_cols : Nat) : Int)⟩,
      some ⟨MatRef.data_mat,
        ((max (load inp).data_mat.n_cols (load inp).random_mat.n_cols : Nat) : Int)⟩],
      (slots inp).comp_multi, some true⟩, List.mem_append_right _ (by simp), rfl⟩
  · intro a ha
    rw [algCalls_program] at ha
    rw [builtTrees_program]
    cases hs : inp.do_single_bandwidth <;> cases hn : inp.do_naive <;>
      simp only [hs, hn, if_true, if_false, Bool.false_eq_true, List.append_nil, List.nil_append,
        List.not_mem_nil, List.mem_cons, List.mem_append, List.mem_singleton, or_false] at ha <;>
      rcases ha with rfl | rfl <;>
      refine ⟨⟨_, _, rfl, rfl, rfl, by simp, by simp⟩, h5, fun i hi => ?_⟩ <;>
      (show ∃ m t, (slots inp).comp_mats[i]? = some (some m) ∧
          [some (⟨MatRef.random_mat, _⟩ : NptNode), some ⟨MatRef.data_mat, _⟩][
            slotSet (slots inp).comp_multi i]? = some (some t) ∧ t.built_from = m
       rw [h5]
       exact aligned_of_trees inp h0 hK _ i hi)

/-- C8, at the sample run (`K = 3`, `num_random = 2`, both runs requested). -/
theorem trees_aligned_with_slots_witness :
    (0 ≤ sampleInput.num_random ∧
      sampleInput.num_random ≤ (sampleInput.matcher_lower_bounds.n_cols : Int)) ∧
    (sampleInput.do_single_bandwidth = true →
      ∃ a ∈ algCalls (program sampleInput), a.naive = none) ∧
    (sampleInput.do_naive = true →
      ∃ a ∈ algCalls (program sampleInput), a.naive = some true) ∧
    ∀ a ∈ algCalls (program sampleInput),
      (∃ t0 t1, a.comp_trees = [some t0, some t1] ∧
        t0.built_from = MatRef.random_mat ∧ t1.built_from = MatRef.data_mat ∧
        t0 ∈ builtTrees (program sampleInput) ∧ t1 ∈ builtTrees (program sampleInput)) ∧
      a.comp_multi
        = [sampleInput.num_random,
            (sampleInput.matcher_lower_bounds.n_cols : Int) - sampleInput.num_random] ∧
      ∀ i : Nat, i < sampleInput.matcher_lower_bounds.n_cols →
        ∃ m t, (slots sampleInput).comp_mats[i]? = some (some m) ∧
          a.comp_trees[slotSet a.comp_multi i]? = some (some t) ∧ t.built_from = m :=
  ⟨⟨by decide, by decide⟩, trees_aligned_with_slots sampleInput (by decide) (by decide)⟩

/-- C5: when `do_naive` is given, the calls of the naive run follow those of the program
without `do_naive`, and among them `IO::SetParam<int>("tree/leaf_size", max(data_mat.n_cols,
random_mat.n_cols))` comes before the construction of the two trees (no tree is built between
the start of the naive run and it, the data tree and the random tree are built after it, under
that registry value).  The number of columns (points) of the matrix of either tree is at most
that leaf size, and the algorithm of the naive run is constructed with the naive flag
`true`. -/
theorem naive_leaf_size_covers_both_sets (inp : DriverInput) (hn : inp.do_naive = true) :
    ∃ pre post : List Step,
      program inp = program { inp with do_naive := false } ++
        (pre ++ Step.setParam "tree/leaf_size"
          ((max (load inp).data_mat.n_cols (load inp).random_mat.n_cols : Nat) : Int) :: post) ∧
      builtTrees pre = [] ∧
      builtTrees post =
        [ ⟨MatRef.data_mat,
            ((max (load inp).data_mat.n_cols (load inp).random_mat.n_cols : Nat) : Int)⟩,
          ⟨MatRef.random_mat,
            ((max (load inp).data_mat.n_cols (load inp).random_mat.n_cols : Nat) : Int)⟩ ] ∧
      (∀ t ∈ builtTrees post,
        ((derefMat (load inp) t.built_from).n_cols : Int) ≤ t.leaf_size) ∧
      (algCalls post).map (fun a => a.naive) = [some true] ∧
      ((load inp).data_mat.n_cols : Int)
        ≤ ((max (load inp).data_mat.n_cols (load inp).random_mat.n_cols : Nat) : Int) ∧
      ((load inp).random_mat.n_cols : Int)
        ≤ ((max (load inp).data_mat.n_cols (load inp).random_mat.n_cols : Nat) : Int) := by
  refine ⟨[Step.startTimer "naive_time"],
    [ Step.newNptNode ⟨MatRef.data_mat,
        ((max (load inp).data_mat.n_cols (load inp).random_mat.n_cols : Nat) : Int)⟩,
      Step.newNptNode ⟨MatRef.random_mat,
        ((max (load inp).data_mat.n_cols (load inp).random_mat.n_cols : Nat) : Int)⟩,
      Step.newSingleMatcher ⟨(slots inp).comp_mats, (slots inp).comp_weights,
        inp.matcher_lower_bounds, inp.matcher_upper_bounds⟩,
      Step.newGenericNptAlg
        ⟨[some ⟨MatRef.random_mat,
            ((max (load inp).data_mat.n_cols (load inp).random_mat.n_cols : Nat) : Int)⟩,
          some ⟨MatRef.data_mat,
            ((max (load inp).data_mat.n_cols (load inp).random_mat.n_cols : Nat) : Int)⟩],
         (slots inp).comp_multi, some true⟩,
      Step.compute,
      Step.stopTimer "naive_time",
      Step.results ], ?_, rfl, rfl, ?_, rfl, ?_, ?_⟩
  · rw [program_eq inp, program_eq { inp with do_naive := false }, hn]
    simp only [if_true, Bool.false_eq_true, if_false, List.append_nil, List.singleton_append]
    rfl
  · intro t ht
    simp only [builtTrees, List.mem_cons, List.mem_singleton, List.not_mem_nil, or_false] at ht
    rcases ht with rfl | rfl
    · show ((load inp).data_mat.n_cols : Int)
        ≤ ((max (load inp).data_mat.n_cols (load inp).random_mat.n_cols : Nat) : Int)
      exact_mod_cast le_max_left _ _
    · show ((load inp).random_mat.n_cols : Int)
        ≤ ((max (load inp).data_mat.n_cols (load inp).random_mat.n_cols : Nat) : Int)
      exact_mod_cast le_max_right _ _
  · exact_mod_cast le_max_left _ _
  · exact_mod_cast le_max_right _ _

/-- C5, at the sample run. -/
theorem naive_leaf_size_covers_both_sets_witness :
    sampleInput.do_naive = true ∧
    ∃ pre post : List Step,
      program sampleInput = program { sampleInput with do_naive := false } ++
        (pre ++ Step.setParam "tree/leaf_size"
          ((max (load sampleInput).data_mat.n_cols (load sampleInput).random_mat.n_cols : Nat) :
            Int) :: post) ∧
      builtTrees pre = [] ∧
      builtTrees post =
        [ ⟨MatRef.data_mat,
            ((max (load sampleInput).data_mat.n_cols (load sampleInput).random_mat.n_cols : Nat) :
              Int)⟩,
          ⟨MatRef.random_mat,
            ((max (load sampleInput).data_mat.n_cols (load sampleInput).random_mat.n_cols : Nat) :
              Int)⟩ ] ∧
      (∀ t ∈ builtTrees post,
        ((derefMat (load sampleInput) t.built_from).n_cols : Int) ≤ t.leaf_size) ∧
      (algCalls post).map (fun a => a.naive) = [some true] ∧
      ((load sampleInput).data_mat.n_cols : Int)
        ≤ ((max (load sampleInput).data_mat.n_cols (load sampleInput).random_mat.n_cols : Nat) :
            Int) ∧
      ((load sampleInput).random_mat.n_cols : Int)
        ≤ ((max (load sampleInput).data_mat.n_cols (load sampleInput).random_mat.n_cols : Nat) :
            Int) :=
  ⟨rfl, naive_leaf_size_covers_both_sets sampleInput rfl⟩

/-! ## Loading: weights and orientation -/

/-- The vector `random_weights` that `comp_weights` points to is empty for every input: the
vector that is loaded or filled is the one declared inside the block. -/
theorem random_weights_never_assigned (inp : DriverInput) :
    derefWeights inp (load inp) WeightRef.random_weights = [] := rfl

/-- A loaded matrix with at least one row is always transposed, because the test compares its
row count with the column count of the still empty target. -/
theorem load_data_mat_eq_trans (data_in : Mat) (h : 0 < data_in.n_rows) :
    load_data_mat data_in = trans data_in := by
  unfold load_data_mat
  exact if_pos h

/-- C3, evaluated at the sample run (three random points, two random slots, no weighted
computation): slot 0 draws from the random set, which has three points, and its weight pointer
leads to the vector `random_weights` of line 76, which is empty; the all-ones vector of length
three was written to the vector declared at line 95, which no slot points to. -/
theorem sample_random_slot_weights_empty :
    sampleInput.weighted_computation = false ∧
    (slots sampleInput).comp_mats[0]? = some (some MatRef.random_mat) ∧
    (derefMat (load sampleInput) MatRef.random_mat).n_cols = 3 ∧
    (slots sampleInput).comp_weights[0]? = some (some WeightRef.random_weights) ∧
    derefWeights sampleInput (load sampleInput) WeightRef.random_weights = [] ∧
    (load sampleInput).random_weights_block = some [1, 1, 1] ∧
    (load sampleInput).weights = [1, 1, 1] :=
  ⟨rfl, by decide, rfl, by decide, rfl, rfl, rfl⟩

/-- C4, evaluated on files stored as D rows by N columns (`D = 2 < N = 3`): both loaded
matrices come out with 3 rows and 2 columns, that is transposed, while the same points stored
as N rows by D columns come out with 2 rows and 3 columns. -/
theorem columns_file_loaded_transposed :
    (columnsInput.data_file.n_rows = 2 ∧ columnsInput.data_file.n_cols = 3) ∧
    ((load columnsInput).data_mat.n_rows = 3 ∧ (load columnsInput).data_mat.n_cols = 2) ∧
    ((load columnsInput).random_mat.n_rows = 3 ∧ (load columnsInput).random_mat.n_cols = 2) ∧
    ((load sampleInput).data_mat.n_rows = 2 ∧ (load sampleInput).data_mat.n_cols = 3) ∧
    ((load sampleInput).random_mat.n_rows = 2 ∧ (load sampleInput).random_mat.n_cols = 3) :=
  ⟨⟨rfl, rfl⟩, ⟨rfl, rfl⟩, ⟨rfl, rfl⟩, ⟨rfl, rfl⟩, ⟨rfl, rfl⟩⟩

/-! ## Validation before `Compute()` -/

/-- Only the construction of a tree or of the matcher can throw. -/
theorem isConstructor_of_stepCheck_error (inp : DriverInput) (l : Loaded) (s : Step) (e : Err)
    (h : stepCheck inp l s = Except.error e) : s.isConstructor = true := by
  cases s <;> simp [stepCheck, Step.isConstructor] at h ⊢

/-- When the calls end by an error, the completed calls are those that precede, in the
program, the call that threw it. -/
theorem exec_thrown (check : Step → Except Err Unit) :
    ∀ (L : List Step) (e : Err), (exec check L).thrown = some e →
      ∃ s rest, L = (exec check L).completed ++ s :: rest ∧ check s = Except.error e := by
  intro L
  induction L with
  | nil => intro e h; simp [exec] at h
  | cons st rest ih =>
    intro e h
    cases hc : check st with
    | error e' =>
      simp only [exec, hc] at h ⊢
      have : e' = e := by simpa using h
      subst this
      exact ⟨st, rest, by simp, hc⟩
    | ok u =>
      simp only [exec, hc] at h ⊢
      obtain ⟨s, rest', h1, h2⟩ := ih e h
      exact ⟨s, rest', by rw [List.cons_append, ← h1], h2⟩

/-- On an invalid input the two tree constructions followed by the matcher construction never
all return.  A tree constructor throws when a point set is empty (or the leaf size is below
1); otherwise both trees are built and the matcher constructor throws, `InvalidInputError` for
bounds that are not square K×K and `InvalidMatcherError` for square bounds that are not
symmetric or have `lower > upper`.  The calls that follow are not made. -/
theorem exec_constructions_invalid (inp : DriverInput) (h : invalidInput inp) (leaf : Int)
    (rest : List Step) :
    exec (stepCheck inp (load inp))
        (Step.newNptNode ⟨MatRef.data_mat, leaf⟩ :: Step.newNptNode ⟨MatRef.random_mat, leaf⟩ ::
          Step.newSingleMatcher ⟨(slots inp).comp_mats, (slots inp).comp_weights,
            inp.matcher_lower_bounds, inp.matcher_upper_bounds⟩ :: rest)
      = ⟨if (load inp).data_mat.n_cols = 0 ∨ leaf < 1 then []
          else if (load inp).random_mat.n_cols = 0 then
            [Step.newNptNode ⟨MatRef.data_mat, leaf⟩]
          else [Step.newNptNode ⟨MatRef.data_mat, leaf⟩,
            Step.newNptNode ⟨MatRef.random_mat, leaf⟩],
         some (if (load inp).data_mat.n_cols = 0 ∨ (load inp).random_mat.n_cols = 0 ∨ leaf < 1
              ∨ notSquareKxK inp.matcher_lower_bounds inp.matcher_upper_bounds
            then Err.InvalidInputError else Err.InvalidMatcherError)⟩ := by
  have bErr : ∀ m : Mat, m.n_cols = 0 ∨ leaf < 1 →
      Build_check m leaf = Except.error Err.InvalidInputError := fun m hm => if_pos hm
  have bOk : ∀ m : Mat, ¬ (m.n_cols = 0 ∨ leaf < 1) → Build_check m leaf = Except.ok () :=
    fun m hm => if_neg hm
  by_cases hd : (load inp).data_mat.n_cols = 0 ∨ leaf < 1
  · have hc : (load inp).data_mat.n_cols = 0 ∨ (load inp).random_mat.n_cols = 0 ∨ leaf < 1
        ∨ notSquareKxK inp.matcher_lower_bounds inp.matcher_upper_bounds := by tauto
    simp only [exec, stepCheck, derefMat, bErr _ hd]
    rw [if_pos hd, if_pos hc]
  · have hd1 : ¬ (load inp).data_mat.n_cols = 0 := fun x => hd (Or.inl x)
    have hl : ¬ leaf < 1 := fun x => hd (Or.inr x)
    by_cases hr : (load inp).random_mat.n_cols = 0
    · have hc : (load inp).data_mat.n_cols = 0 ∨ (load inp).random_mat.n_cols = 0 ∨ leaf < 1
          ∨ notSquareKxK inp.matcher_lower_bounds inp.matcher_upper_bounds := by tauto
      simp only [exec, stepCheck, derefMat, bOk _ hd, bErr _ (Or.inl hr)]
      rw [if_neg hd, if_pos hr, if_pos hc]
    · have hr' : ¬ ((load inp).random_mat.n_cols = 0 ∨ leaf < 1) := by tauto
      by_cases hsq : notSquareKxK inp.matcher_lower_bounds inp.matcher_upper_bounds
      · have hc : (load inp).data_mat.n_cols = 0 ∨ (load inp).random_mat.n_cols = 0 ∨ leaf < 1
            ∨ notSquareKxK inp.matcher_lower_bounds inp.matcher_upper_bounds := by tauto
        have hm : SingleMatcher_check inp (load inp) ⟨(slots inp).comp_mats,
            (slots inp).comp_weights, inp.matcher_lower_bounds, inp.matcher_upper_bounds⟩
            = Except.error Err.InvalidInputError := if_pos hsq
        simp only [exec, stepCheck, derefMat, bOk _ hd, bOk _ hr', hm]
        rw [if_neg hd, if_neg hr, if_pos hc]
      · have hc : ¬ ((load inp).data_mat.n_cols = 0 ∨ (load inp).random_mat.n_cols = 0
            ∨ leaf < 1 ∨ notSquareKxK inp.matcher_lower_bounds inp.matcher_upper_bounds) := by
          tauto
        have hsym : ¬ isSymmetric inp.matcher_lower_bounds
            ∨ ¬ isSymmetric inp.matcher_upper_bounds
            ∨ isInverted inp.matcher_lower_bounds inp.matcher_upper_bounds := by
          unfold invalidInput at h
          unfold notSquareKxK at hsq
          tauto
        have hm : SingleMatcher_check inp (load inp) ⟨(slots inp).comp_mats,
            (slots inp).comp_weights, inp.matcher_lower_bounds, inp.matcher_upper_bounds⟩
            = Except.error Err.InvalidMatcherError :=
          (if_neg hsq).trans (if_pos hsym)
        simp only [exec, stepCheck, derefMat, bOk _ hd, bOk _ hr', hm]
        rw [if_neg hd, if_neg hr, if_neg hc]

/-- What `main` comes to on an invalid input when a run is requested: the calls before the
first tree construction return, then the constructions go as in
`exec_constructions_invalid`, under the leaf size of the first requested run. -/
theorem main_invalid_eq (inp : DriverInput) (h : invalidInput inp)
    (hrun : inp.do_single_bandwidth = true ∨ inp.do_naive = true) :
    main inp
      = ⟨(if inp.do_single_bandwidth then [Step.startTimer "single_bandwidth_time"]
          else [Step.startTimer "naive_time",
            Step.setParam "tree/leaf_size" (firstRunLeafSize inp)]) ++
          (if (load inp).data_mat.n_cols = 0 ∨ firstRunLeafSize inp < 1 then []
           else if (load inp).random_mat.n_cols = 0 then
             [Step.newNptNode ⟨MatRef.data_mat, firstRunLeafSize inp⟩]
           else [Step.newNptNode ⟨MatRef.data_mat, firstRunLeafSize inp⟩,
             Step.newNptNode ⟨MatRef.random_mat, firstRunLeafSize inp⟩]),
         some (if (load inp).data_mat.n_cols = 0 ∨ (load inp).random_mat.n_cols = 0
              ∨ firstRunLeafSize inp < 1
              ∨ notSquareKxK inp.matcher_lower_bounds inp.matcher_upper_bounds
            then Err.InvalidInputError else Err.InvalidMatcherError)⟩ := by
  have e1 : ∀ (name : String) (rest : List Step),
      exec (stepCheck inp (load inp)) (Step.startTimer name :: rest)
        = ⟨Step.startTimer name :: (exec (stepCheck inp (load inp)) rest).completed,
            (exec (stepCheck inp (load inp)) rest).thrown⟩ := fun _ _ => rfl
  have e2 : ∀ (name : String) (v : Int) (rest : List Step),
      exec (stepCheck inp (load inp)) (Step.setParam name v :: rest)
        = ⟨Step.setParam name v :: (exec (stepCheck inp (load inp)) rest).completed,
            (exec (stepCheck inp (load inp)) rest).thrown⟩ := fun _ _ _ => rfl
  unfold main
  rw [program_eq]
  cases hs : inp.do_single_bandwidth
  · have hn : inp.do_naive = true := by
      rcases hrun with h1 | h1
      · rw [hs] at h1; exact absurd h1 (by decide)
      · exact h1
    have hleaf : firstRunLeafSize inp
        = ((max (load inp).data_mat.n_cols (load inp).random_mat.n_cols : Nat) : Int) := by
      unfold firstRunLeafSize
      rw [hs]
      rfl
    rw [hleaf]
    simp only [hn, if_true, Bool.false_eq_true, if_false, List.nil_append, e1, e2,
      exec_constructions_invalid inp h, List.cons_append]
  · have hleaf : firstRunLeafSize inp = inp.tree_leaf_size := by
      unfold firstRunLeafSize
      rw [hs]
      rfl
    rw [hleaf]
    simp only [if_true, List.cons_append, e1, exec_constructions_invalid inp h,
      List.nil_append]

/-- With neither `do_single_bandwidth` nor `do_naive`, `main` makes no call into the
algorithm and returns normally, whatever the input. -/
theorem main_without_run (inp : DriverInput) (hs : inp.do_single_bandwidth = false)
    (hn : inp.do_naive = false) : main inp = ⟨[], none⟩ := by
  unfold main
  rw [program_eq, hs, hn]
  rfl

/-- C6: on every input whose bound matrices are not square, not symmetric or have
`lower[i][j] > upper[i][j]` for some `i ≠ j`, or in which a point set is empty, `Compute()` is
never invoked, and no matcher and no algorithm object is ever constructed.  In the run the
driver is asked for (`do_single_bandwidth` or `do_naive`; the first one when both are given)
`main` ends with an `InvalidInputError` or `InvalidMatcherError`, and the call that threw it is
the construction of a tree or of the matcher, the next call of the program after those that
returned.  When a point set is empty it is a tree constructor that throws
`InvalidInputError`, before the second tree exists; when both point sets are non-empty (and
the leaf size is at least 1) both trees are built and the matcher constructor throws,
`InvalidInputError` for bounds that are not square K×K and `InvalidMatcherError` for bounds
that are not symmetric or are inverted.  When no run is asked for, `main` makes no call. -/
theorem invalid_input_rejected_before_compute (inp : DriverInput) (h : invalidInput inp) :
    (main inp).computeCalls = 0 ∧
    algCalls (main inp).completed = [] ∧
    matcherCalls (main inp).completed = [] ∧
    (inp.do_single_bandwidth = true ∨ inp.do_naive = true →
      (∃ e s rest, (main inp).thrown = some e ∧
        (e = Err.InvalidInputError ∨ e = Err.InvalidMatcherError) ∧
        program inp = (main inp).completed ++ s :: rest ∧
        s.isConstructor = true ∧ stepCheck inp (load inp) s = Except.error e) ∧
      ((load inp).data_mat.n_cols = 0 ∨ (load inp).random_mat.n_cols = 0 →
        (main inp).thrown = some Err.InvalidInputError ∧
        (builtTrees (main inp).completed).length ≤ 1) ∧
      ((load inp).data_mat.n_cols ≠ 0 → (load inp).random_mat.n_cols ≠ 0 →
        1 ≤ firstRunLeafSize inp →
        builtTrees (main inp).completed
          = [⟨MatRef.data_mat, firstRunLeafSize inp⟩,
              ⟨MatRef.random_mat, firstRunLeafSize inp⟩] ∧
        (main inp).thrown
          = some (if notSquareKxK inp.matcher_lower_bounds inp.matcher_upper_bounds
              then Err.InvalidInputError else Err.InvalidMatcherError))) ∧
    (inp.do_single_bandwidth = false → inp.do_naive = false →
      (main inp).completed = [] ∧ (main inp).thrown = none) := by
  by_cases hrun : inp.do_single_bandwidth = true ∨ inp.do_naive = true
  · have hm := main_invalid_eq inp h hrun
    have hpre : ∀ T : List Step,
        ((if inp.do_single_bandwidth then [Step.startTimer "single_bandwidth_time"]
          else [Step.startTimer "naive_time",
            Step.setParam "tree/leaf_size" (firstRunLeafSize inp)]) ++ T).filter Step.isCompute
          = T.filter Step.isCompute ∧
        algCalls ((if inp.do_single_bandwidth then [Step.startTimer "single_bandwidth_time"]
          else [Step.startTimer "naive_time",
            Step.setParam "tree/leaf_size" (firstRunLeafSize inp)]) ++ T) = algCalls T ∧
        matcherCalls ((if inp.do_single_bandwidth then [Step.startTimer "single_bandwidth_time"]
          else [Step.startTimer "naive_time",
            Step.setParam "tree/leaf_size" (firstRunLeafSize inp)]) ++ T) = matcherCalls T ∧
        builtTrees ((if inp.do_single_bandwidth then [Step.startTimer "single_bandwidth_time"]
          else [Step.startTimer "naive_time",
            Step.setParam "tree/leaf_size" (firstRunLeafSize inp)]) ++ T) = builtTrees T := by
      intro T
      cases inp.do_single_bandwidth <;> exact ⟨rfl, rfl, rfl, rfl⟩
    refine ⟨?_, ?_, ?_, fun _ => ⟨?_, ?_, ?_⟩, ?_⟩
    · rw [hm]
      unfold Outcome.computeCalls
      rw [(hpre _).1]
      split_ifs <;> rfl
    · rw [hm, (hpre _).2.1]
      split_ifs <;> rfl
    · rw [hm, (hpre _).2.2.1]
      split_ifs <;> rfl
    · have hth : (main inp).thrown
          = some (if (load inp).data_mat.n_cols = 0 ∨ (load inp).random_mat.n_cols = 0
              ∨ firstRunLeafSize inp < 1
              ∨ notSquareKxK inp.matcher_lower_bounds inp.matcher_upper_bounds
            then Err.InvalidInputError else Err.InvalidMatcherError) := by rw [hm]
      obtain ⟨s, rest, h1, h2⟩ := exec_thrown (stepCheck inp (load inp)) (program inp) _ hth
      refine ⟨_, s, rest, hth, ?_, h1, isConstructor_of_stepCheck_error inp (load inp) s _ h2, h2⟩
      split_ifs
      · exact Or.inl rfl
      · exact Or.inr rfl
    · intro hempty
      have hc : (load inp).data_mat.n_cols = 0 ∨ (load inp).random_mat.n_cols = 0
          ∨ firstRunLeafSize inp < 1
          ∨ notSquareKxK inp.matcher_lower_bounds inp.matcher_upper_bounds := by tauto
      rw [hm]
      refine ⟨by rw [if_pos hc], ?_⟩
      show (builtTrees _).length ≤ 1
      rw [(hpre _).2.2.2]
      split_ifs with c1 c2
      · simp [builtTrees]
      · simp [builtTrees]
      · exact absurd hempty (by tauto)
    · intro hd hr hl
      have c1 : ¬ ((load inp).data_mat.n_cols = 0 ∨ firstRunLeafSize inp < 1) := by
        rintro (x | x)
        · exact hd x
        · omega
      rw [hm]
      refine ⟨?_, ?_⟩
      · show builtTrees _ = _
        rw [(hpre _).2.2.2, if_neg c1, if_neg hr]
        rfl
      · show some _ = some _
        by_cases hsq : notSquareKxK inp.matcher_lower_bounds inp.matcher_upper_bounds
        · rw [if_pos hsq, if_pos (Or.inr (Or.inr (Or.inr hsq)))]
        · have c : ¬ ((load inp).data_mat.n_cols = 0 ∨ (load inp).random_mat.n_cols = 0
              ∨ firstRunLeafSize inp < 1
              ∨ notSquareKxK inp.matcher_lower_bounds inp.matcher_upper_bounds) := by
            rintro (x | x | x | x)
            · exact hd x
            · exact hr x
            · omega
            · exact hsq x
          rw [if_neg hsq, if_neg c]
    · intro hs hn
      rw [hs, hn] at hrun
      exact absurd hrun (by decide)
  · have hs : inp.do_single_bandwidth = false := by
      cases hx : inp.do_single_bandwidth
      · rfl
      · exact absurd (Or.inl hx) hrun
    have hn : inp.do_naive = false := by
      cases hx : inp.do_naive
      · rfl
      · exact absurd (Or.inr hx) hrun
    have hm := main_without_run inp hs hn
    refine ⟨by rw [hm]; rfl, by rw [hm]; rfl, by rw [hm]; rfl, fun hr => absurd hr hrun,
      fun _ _ => by rw [hm]; exact ⟨rfl, rfl⟩⟩

/-- C6, at the run `nonSquareInput`: it differs from `dataOnlyInput`, which passes the
validation and reaches `Compute()` in both runs, only in its lower bound matrix of 2 rows and
3 columns. -/
theorem invalid_input_rejected_before_compute_witness :
    invalidInput nonSquareInput ∧
    (main nonSquareInput).computeCalls = 0 ∧
    algCalls (main nonSquareInput).completed = [] ∧
    matcherCalls (main nonSquareInput).completed = [] ∧
    (nonSquareInput.do_single_bandwidth = true ∨ nonSquareInput.do_naive = true →
      (∃ e s rest, (main nonSquareInput).thrown = some e ∧
        (e = Err.InvalidInputError ∨ e = Err.InvalidMatcherError) ∧
        program nonSquareInput = (main nonSquareInput).completed ++ s :: rest ∧
        s.isConstructor = true ∧
        stepCheck nonSquareInput (load nonSquareInput) s = Except.error e) ∧
      ((load nonSquareInput).data_mat.n_cols = 0 ∨ (load nonSquareInput).random_mat.n_cols = 0 →
        (main nonSquareInput).thrown = some Err.InvalidInputError ∧
        (builtTrees (main nonSquareInput).completed).length ≤ 1) ∧
      ((load nonSquareInput).data_mat.n_cols ≠ 0 → (load nonSquareInput).random_mat.n_cols ≠ 0 →
        1 ≤ firstRunLeafSize nonSquareInput →
        builtTrees (main nonSquareInput).completed
          = [⟨MatRef.data_mat, firstRunLeafSize nonSquareInput⟩,
              ⟨MatRef.random_mat, firstRunLeafSize nonSquareInput⟩] ∧
        (main nonSquareInput).thrown
          = some (if notSquareKxK nonSquareInput.matcher_lower_bounds
                nonSquareInput.matcher_upper_bounds
              then Err.InvalidInputError else Err.InvalidMatcherError))) ∧
    (nonSquareInput.do_single_bandwidth = false → nonSquareInput.do_naive = false →
      (main nonSquareInput).completed = [] ∧ (main nonSquareInput).thrown = none) :=
  ⟨Or.inl (by show ¬ ((2 : Nat) = 3); decide),
    invalid_input_rejected_before_compute nonSquareInput
      (Or.inl (by show ¬ ((2 : Nat) = 3); decide))⟩

/-- The sample run, whose bound matrices and point sets are valid, is rejected all the same by
the modelled matcher constructor: its two random slots carry the empty vector `random_weights`
next to a point set of three points, a mismatched weight-vector length. -/
theorem sample_run_rejected_for_weights :
    ¬ invalidInput sampleInput ∧
    (main sampleInput).thrown = some Err.InvalidInputError ∧
    builtTrees (main sampleInput).completed = [⟨MatRef.data_mat, 1⟩, ⟨MatRef.random_mat, 1⟩] := by
  unfold invalidInput
  decide

/-- Without a random file the random point set is empty: the run ends in the constructor of
the random tree, after the data tree was built, with `InvalidInputError`; no matcher is
constructed and `Compute()` is not invoked. -/
theorem empty_random_set_stops_at_tree :
    (load noRandomFileInput).random_mat.n_cols = 0 ∧
    (main noRandomFileInput).thrown = some Err.InvalidInputError ∧
    builtTrees (main noRandomFileInput).completed = [⟨MatRef.data_mat, 1⟩] ∧
    (main noRandomFileInput).computeCalls = 0 := by
  decide

/-- The validation does not reject everything, and the hypothesis of invalidity matters: the
run `dataOnlyInput` passes all checks and `Compute()` is invoked once in each of its two runs,
while the same run with the lower bound matrix of 2 rows and 3 columns ends in the matcher
constructor, after both trees of the tree run were built, with `InvalidInputError` and without
a call of `Compute()`. -/
theorem valid_input_reaches_compute :
    ((main dataOnlyInput).thrown = none ∧ (main dataOnlyInput).computeCalls = 2) ∧
    ((main nonSquareInput).thrown = some Err.InvalidInputError ∧
      (main nonSquareInput).computeCalls = 0 ∧
      builtTrees (main nonSquareInput).completed
        = [⟨MatRef.data_mat, 1⟩, ⟨MatRef.random_mat, 1⟩]) := by
  decide

end NPoint

namespace Softmax

open Arma

/-! ## `SoftmaxRegression::Train` -/

/-- C7: for every model, data set, labels, `numClasses`, optimizer and callbacks, `Train` calls
`optimizer.Optimize` exactly once, on the `SoftmaxRegressionFunction` built from `(data, labels,
numClasses, lambda, fitIntercept)`; the value `Train` returns is the value that call returned
(it is also the value logged), the parameters it leaves in the model are the matrix that call
left in the iterate, and the other members of the model are unchanged. -/
theorem Train_returns_what_Optimize_returns {CallbackType : Type}
    (GetInitialPoint : SoftmaxRegressionFunction → Mat) (self : SoftmaxRegression)
    (data : Mat) (labels : List Nat) (numClasses : Nat)
    (optimizer : OptimizerType CallbackType) (callbacks : List CallbackType) :
    ∃ start : Mat,
      (Train GetInitialPoint self data labels numClasses optimizer callbacks).events.filterMap
          (fun e => match e with
            | TrainEvent.optimize regressor start => some (regressor, start)
            | _ => none)
        = [(⟨data, labels, numClasses, self.lambda, self.fitIntercept⟩, start)] ∧
      (Train GetInitialPoint self data labels numClasses optimizer callbacks).out
        = (optimizer.Optimize ⟨data, labels, numClasses, self.lambda, self.fitIntercept⟩
            start callbacks).1 ∧
      (Train GetInitialPoint self data labels numClasses optimizer callbacks).self.parameters
        = (optimizer.Optimize ⟨data, labels, numClasses, self.lambda, self.fitIntercept⟩
            start callbacks).2 ∧
      (Train GetInitialPoint self data labels numClasses optimizer callbacks).events.getLast?
        = some (TrainEvent.logInfo
            (optimizer.Optimize ⟨data, labels, numClasses, self.lambda, self.fitIntercept⟩
              start callbacks).1) ∧
      (Train GetInitialPoint self data labels numClasses optimizer callbacks).self.numClasses
        = self.numClasses ∧
      (Train GetInitialPoint self data labels numClasses optimizer callbacks).self.lambda
        = self.lambda ∧
      (Train GetInitialPoint self data labels numClasses optimizer callbacks).self.fitIntercept
        = self.fitIntercept := by
  refine ⟨if self.parameters.is_empty then
      GetInitialPoint ⟨data, labels, numClasses, self.lambda, self.fitIntercept⟩
    else self.parameters, ?_, rfl, rfl, ?_, rfl, rfl, rfl⟩
  · cases h : self.parameters.is_empty <;> simp [Train, h]
  · cases h : self.parameters.is_empty <;> simp [Train, h]

/-- C10: `Train` assigns `regressor.GetInitialPoint()` to the parameters if and only if they
are empty on entry, and it does so before the optimizer is called.  When the parameters are
empty on entry, the value `Train` returns and the parameters it leaves are those of
`Optimize` started from the initial point of the regressor; when they are not empty, they are
those of `Optimize` started from the parameters found on entry, unchanged (warm start).  The
templated constructor, whose parameters are empty when it calls `Train`, always optimizes from
the initial point of the regressor built from its own arguments: the object it constructs
holds what `Optimize` started there (without callbacks) left in the iterate, next to the three
members of the initializer list. -/
theorem Train_starts_from_initial_point_iff_empty {CallbackType : Type}
    (GetInitialPoint : SoftmaxRegressionFunction → Mat) (self : SoftmaxRegression)
    (data : Mat) (labels : List Nat) (numClasses : Nat)
    (optimizer : OptimizerType CallbackType) (callbacks : List CallbackType) :
    (((Train GetInitialPoint self data labels numClasses optimizer callbacks).events.any
        TrainEvent.isAssignInitialPoint = true) ↔ self.parameters.is_empty = true) ∧
    (self.parameters.is_empty = true →
      ((Train GetInitialPoint self data labels numClasses optimizer callbacks).events.head?.map
          TrainEvent.isAssignInitialPoint = some true) ∧
      startPoints (Train GetInitialPoint self data labels numClasses optimizer callbacks).events
        = [GetInitialPoint ⟨data, labels, numClasses, self.lambda, self.fitIntercept⟩] ∧
      (Train GetInitialPoint self data labels numClasses optimizer callbacks).out
        = (optimizer.Optimize ⟨data, labels, numClasses, self.lambda, self.fitIntercept⟩
            (GetInitialPoint ⟨data, labels, numClasses, self.lambda, self.fitIntercept⟩)
            callbacks).1 ∧
      (Train GetInitialPoint self data labels numClasses optimizer callbacks).self.parameters
        = (optimizer.Optimize ⟨data, labels, numClasses, self.lambda, self.fitIntercept⟩
            (GetInitialPoint ⟨data, labels, numClasses, self.lambda, self.fitIntercept⟩)
            callbacks).2) ∧
    (self.parameters.is_empty = false →
      startPoints (Train GetInitialPoint self data labels numClasses optimizer callbacks).events
        = [self.parameters] ∧
      (Train GetInitialPoint self data labels numClasses optimizer callbacks).out
        = (optimizer.Optimize ⟨data, labels, numClasses, self.lambda, self.fitIntercept⟩
            self.parameters callbacks).1 ∧
      (Train GetInitialPoint self data labels numClasses optimizer callbacks).self.parameters
        = (optimizer.Optimize ⟨data, labels, numClasses, self.lambda, self.fitIntercept⟩
            self.parameters callbacks).2) ∧
    (∀ (lambda : ℚ) (fitIntercept : Bool),
      ((SoftmaxRegression.new GetInitialPoint data labels numClasses lambda fitIntercept
          optimizer).events.any TrainEvent.isAssignInitialPoint = true) ∧
      startPoints (SoftmaxRegression.new GetInitialPoint data labels numClasses lambda
          fitIntercept optimizer).events
        = [GetInitialPoint ⟨data, labels, numClasses, lambda, fitIntercept⟩] ∧
      (SoftmaxRegression.new GetInitialPoint data labels numClasses lambda fitIntercept
          optimizer).out
        = (optimizer.Optimize ⟨data, labels, numClasses, lambda, fitIntercept⟩
            (GetInitialPoint ⟨data, labels, numClasses, lambda, fitIntercept⟩) []).1 ∧
      (SoftmaxRegression.new GetInitialPoint data labels numClasses lambda fitIntercept
          optimizer).self
        = { parameters :=
              (optimizer.Optimize ⟨data, labels, numClasses, lambda, fitIntercept⟩
                (GetInitialPoint ⟨data, labels, numClasses, lambda, fitIntercept⟩) []).2
            numClasses := numClasses
            lambda := lambda
            fitIntercept := fitIntercept }) := by
  refine ⟨?_, ?_, ?_, ?_⟩
  · cases h : self.parameters.is_empty <;>
      simp [Train, h, TrainEvent.isAssignInitialPoint]
  · intro h
    simp [Train, h, TrainEvent.isAssignInitialPoint, startPoints]
  · intro h
    simp [Train, h, startPoints]
  · intro lambda fitIntercept
    have he : Mat.empty.is_empty = true := rfl
    simp [SoftmaxRegression.new, Train, he, TrainEvent.isAssignInitialPoint, startPoints]

end Softmax
